import Mathlib

/-!
# BMS analytics — verification of the seat-occupancy pipeline

Shallow embedding of the core of the repository:

* `src/modules/analyzer.py` — `analyze_seats`: contour filtering and
  colour classification of seat glyphs;
* `src/modules/parser.py` — `parse_schedule_to_df`: traversal of the raw
  schedule document and trigger-time computation;
* `src/app_scheduler.py` — `run_logic`: capture-job dispatch and the
  self-chaining next-day invocation;
* `src/worker.py` (`process_tasks`) and `src/app_worker.py` (`scrape`) —
  the two capture dispatchers;
* `src/daily_scheduler.py` — the standalone batch scheduler.

Timestamps are embedded as integer minutes: a naive civil timestamp is
converted to minutes since the civil epoch 1970-01-01 00:00 via the
standard days-from-civil algorithm; an IST-aware datetime is represented
by its civil minutes, and a UTC instant by its UTC minutes, the two
related by the fixed Asia/Kolkata offset of +5:30 (330 minutes), which
pytz uses for every modern date.  External effectful collaborators
(OpenCV image decoding and contour extraction, HTTP fetch, Playwright
capture, BigQuery/file sinks, Cloud Tasks) are modelled by their
observable results; everything the repository itself computes is
embedded as written in the source.
-/

namespace BMS

/-! ### Occupancy analyzer — `src/modules/analyzer.py`

An image, once decoded and contour-extracted by OpenCV, is visible to the
Python loop only through per-contour features: `cv2.contourArea(cnt)`
(a float, here a rational), the bounding rectangle width/height from
`cv2.boundingRect`, and the green/yellow pixel counts of the cropped HSV
region.  `analyze_seats` receives `none` when `cv2.imread` fails. -/

structure Contour where
  area : ℚ
  w : ℕ
  h : ℕ
  green_pixels : ℕ
  yellow_pixels : ℕ
deriving DecidableEq, Repr

/-- `aspect_ratio = float(w) / h` of the bounding rectangle. -/
def aspect_ratio (c : Contour) : ℚ := (c.w : ℚ) / (c.h : ℚ)

/-- The retention test of the loop:
`if area > 150 and area < 3000 and 0.7 < aspect_ratio < 1.4`. -/
def seat_filter (c : Contour) : Bool :=
  decide (c.area > 150 ∧ c.area < 3000 ∧
    (0.7 : ℚ) < aspect_ratio c ∧ aspect_ratio c < (1.4 : ℚ))

/-- `pixel_threshold = 10` in the classification step. -/
def pixel_threshold : ℕ := 10

/-- The four counters accumulated by the contour loop. -/
structure Counts where
  total_seats : ℕ
  filled_sold : ℕ
  unsold_available : ℕ
  unsold_bestseller : ℕ
deriving DecidableEq, Repr

/-- The `for cnt in contours` loop of `analyze_seats`: each retained
contour bumps `total_seats` and exactly one classification counter,
following the source's `if`/`elif`/`else` chain. -/
def seat_loop : List Contour → Counts
  | [] => ⟨0, 0, 0, 0⟩
  | c :: rest =>
    let k := seat_loop rest
    if seat_filter c then
      if c.yellow_pixels > pixel_threshold ∧ c.yellow_pixels > c.green_pixels then
        { k with total_seats := k.total_seats + 1,
                 unsold_bestseller := k.unsold_bestseller + 1 }
      else if c.green_pixels > pixel_threshold then
        { k with total_seats := k.total_seats + 1,
                 unsold_available := k.unsold_available + 1 }
      else
        { k with total_seats := k.total_seats + 1,
                 filled_sold := k.filled_sold + 1 }
    else k

/-- The dictionary returned by `analyze_seats` (the
`processed_image_path` entry is a pass-through of an argument and is
omitted). -/
structure OccupancyStats where
  total_seats : ℕ
  filled_sold : ℕ
  available : ℕ
  bestseller : ℕ
  total_unsold : ℕ
deriving DecidableEq, Repr

/-- `analyze_seats`: `none` when the image cannot be decoded
(`cv2.imread` returned `None`), otherwise the stats dictionary built
from the loop counters, with `total_unsold = unsold_available +
unsold_bestseller`. -/
def analyze_seats (img : Option (List Contour)) : Option OccupancyStats :=
  match img with
  | none => none
  | some contours =>
    let k := seat_loop contours
    some { total_seats := k.total_seats
           filled_sold := k.filled_sold
           available := k.unsold_available
           bestseller := k.unsold_bestseller
           total_unsold := k.unsold_available + k.unsold_bestseller }

/-- Spec-side retention predicate for the refinement check of C6, taken
from the spec's words: bounding-box area in the closed interval
[150, 3000] and aspect ratio in the closed interval [0.7, 1.4]. -/
def spec_retention (c : Contour) : Bool :=
  decide ((150 : ℚ) ≤ (c.w * c.h : ℕ) ∧ ((c.w * c.h : ℕ) : ℚ) ≤ 3000 ∧
    (0.7 : ℚ) ≤ aspect_ratio c ∧ aspect_ratio c ≤ (1.4 : ℚ))

lemma seat_loop_sum (l : List Contour) :
    (seat_loop l).filled_sold + (seat_loop l).unsold_available +
      (seat_loop l).unsold_bestseller = (seat_loop l).total_seats := by
  induction l with
  | nil => rfl
  | cons c rest ih =>
    simp only [seat_loop]
    split
    · split
      · simpa using by omega
      · split
        · simpa using by omega
        · simpa using by omega
    · exact ih

/-- **C1.** Whenever `analyze_seats` succeeds, the returned stats
satisfy `filled_sold + available + bestseller = total_seats` and
`total_unsold = available + bestseller`. -/
theorem analyze_seats_invariant (img : Option (List Contour))
    (stats : OccupancyStats) (h : analyze_seats img = some stats) :
    stats.filled_sold + stats.available + stats.bestseller = stats.total_seats ∧
      stats.total_unsold = stats.available + stats.bestseller := by
  match img with
  | none => simp [analyze_seats] at h
  | some contours =>
    simp only [analyze_seats, Option.some.injEq] at h
    subst h
    exact ⟨seat_loop_sum contours, rfl⟩

/-- Witness for C1 on a concrete three-contour image (one sold seat,
one available, one bestseller). -/
theorem analyze_seats_invariant_witness :
    (⟨3, 1, 1, 1, 2⟩ : OccupancyStats).filled_sold +
        (⟨3, 1, 1, 1, 2⟩ : OccupancyStats).available +
        (⟨3, 1, 1, 1, 2⟩ : OccupancyStats).bestseller =
        (⟨3, 1, 1, 1, 2⟩ : OccupancyStats).total_seats ∧
      (⟨3, 1, 1, 1, 2⟩ : OccupancyStats).total_unsold =
        (⟨3, 1, 1, 1, 2⟩ : OccupancyStats).available +
        (⟨3, 1, 1, 1, 2⟩ : OccupancyStats).bestseller :=
  analyze_seats_invariant
    (some [⟨400, 20, 20, 0, 0⟩, ⟨400, 20, 20, 50, 3⟩, ⟨400, 20, 20, 5, 60⟩])
    ⟨3, 1, 1, 1, 2⟩
    (by norm_num [analyze_seats, seat_loop, seat_filter, aspect_ratio, pixel_threshold])

/-- **C5.** For a retained contour, classification follows the strict
precedence of the `if`/`elif`/`else` chain: bestseller iff the yellow
count exceeds the threshold 10 and the green count; otherwise available
iff the green count exceeds 10; otherwise filled/sold — and exactly one
of the three buckets is incremented. -/
theorem classification_precedence (c : Contour) (l : List Contour)
    (h : seat_filter c = true) :
    (seat_loop (c :: l)).total_seats = (seat_loop l).total_seats + 1 ∧
    (seat_loop (c :: l)).filled_sold + (seat_loop (c :: l)).unsold_available +
        (seat_loop (c :: l)).unsold_bestseller =
      (seat_loop l).filled_sold + (seat_loop l).unsold_available +
        (seat_loop l).unsold_bestseller + 1 ∧
    ((seat_loop (c :: l)).unsold_bestseller = (seat_loop l).unsold_bestseller + 1 ↔
      (10 < c.yellow_pixels ∧ c.green_pixels < c.yellow_pixels)) ∧
    ((seat_loop (c :: l)).unsold_available = (seat_loop l).unsold_available + 1 ↔
      (¬(10 < c.yellow_pixels ∧ c.green_pixels < c.yellow_pixels) ∧ 10 < c.green_pixels)) ∧
    ((seat_loop (c :: l)).filled_sold = (seat_loop l).filled_sold + 1 ↔
      (¬(10 < c.yellow_pixels ∧ c.green_pixels < c.yellow_pixels) ∧
        ¬(10 < c.green_pixels))) := by
  by_cases hb : c.yellow_pixels > pixel_threshold ∧ c.yellow_pixels > c.green_pixels
  · simp only [seat_loop, if_pos h, if_pos hb]
    simp only [pixel_threshold] at hb
    refine ⟨?_, ?_, ?_, ?_, ?_⟩ <;> first | trivial | omega | (simp [hb]; try omega)
  · by_cases hg : c.green_pixels > pixel_threshold
    · simp only [seat_loop, if_pos h, if_neg hb, if_pos hg]
      simp only [pixel_threshold] at hb hg
      refine ⟨?_, ?_, ?_, ?_, ?_⟩ <;> first | trivial | omega | (simp [hb, hg]; try omega)
    · simp only [seat_loop, if_pos h, if_neg hb, if_neg hg]
      simp only [pixel_threshold] at hb hg
      refine ⟨?_, ?_, ?_, ?_, ?_⟩ <;> first | trivial | omega | (simp [hb, hg]; try omega)

/-- Witness for C5 on a retained bestseller contour
(yellow 20 > 10, yellow > green 15). -/
theorem classification_precedence_witness :
    (seat_loop [⟨400, 20, 20, 15, 20⟩]).total_seats = (seat_loop []).total_seats + 1 ∧
    (seat_loop [⟨400, 20, 20, 15, 20⟩]).filled_sold +
        (seat_loop [⟨400, 20, 20, 15, 20⟩]).unsold_available +
        (seat_loop [⟨400, 20, 20, 15, 20⟩]).unsold_bestseller =
      (seat_loop []).filled_sold + (seat_loop []).unsold_available +
        (seat_loop []).unsold_bestseller + 1 ∧
    ((seat_loop [⟨400, 20, 20, 15, 20⟩]).unsold_bestseller =
        (seat_loop []).unsold_bestseller + 1 ↔ (10 < 20 ∧ 15 < 20)) ∧
    ((seat_loop [⟨400, 20, 20, 15, 20⟩]).unsold_available =
        (seat_loop []).unsold_available + 1 ↔ (¬(10 < 20 ∧ 15 < 20) ∧ 10 < 15)) ∧
    ((seat_loop [⟨400, 20, 20, 15, 20⟩]).filled_sold = (seat_loop []).filled_sold + 1 ↔
      (¬(10 < 20 ∧ 15 < 20) ∧ ¬(10 < 15))) :=
  classification_precedence ⟨400, 20, 20, 15, 20⟩ []
    (by norm_num [seat_filter, aspect_ratio])

/-- Counterexample to C6: the code filters on `cv2.contourArea` with
*strict* bounds, not on the bounding-box area with closed bounds.  A
contour of contour-area exactly 150 with a 13×12 bounding box (box area
156 ∈ [150, 3000], ratio 13/12 ∈ [0.7, 1.4]) satisfies the claimed
retention predicate yet is dropped (`total_seats = 0`); a sparse contour
of contour-area 1000 with a 100×100 bounding box (box area 10000 ∉
[150, 3000]) fails the claimed predicate yet is retained
(`total_seats = 1`). -/
theorem retention_bounds_counterexample :
    spec_retention ⟨150, 13, 12, 0, 0⟩ = true ∧
    (analyze_seats (some [⟨150, 13, 12, 0, 0⟩])).map OccupancyStats.total_seats = some 0 ∧
    spec_retention ⟨1000, 100, 100, 0, 0⟩ = false ∧
    (analyze_seats (some [⟨1000, 100, 100, 0, 0⟩])).map OccupancyStats.total_seats =
      some 1 := by
  refine ⟨?_, ?_, ?_, ?_⟩ <;>
    norm_num [spec_retention, aspect_ratio, analyze_seats, seat_loop, seat_filter,
      pixel_threshold]

/-- Code-side retention predicate spelled out for C6 as amended:
contour area strictly between 150 and 3000, bounding-box aspect ratio
strictly between 0.7 and 1.4. -/
def amended_retention (c : Contour) : Bool :=
  decide (150 < c.area ∧ c.area < 3000 ∧
    (0.7 : ℚ) < aspect_ratio c ∧ aspect_ratio c < (1.4 : ℚ))

lemma seat_loop_total (l : List Contour) :
    (seat_loop l).total_seats = (l.filter seat_filter).length := by
  induction l with
  | nil => rfl
  | cons c rest ih =>
    simp only [seat_loop]
    by_cases h : seat_filter c = true
    · rw [if_pos h, List.filter_cons_of_pos (by simpa using h)]
      by_cases hy : c.yellow_pixels > pixel_threshold ∧ c.yellow_pixels > c.green_pixels
      · rw [if_pos hy]; simp [ih]
      · rw [if_neg hy]
        by_cases hg : c.green_pixels > pixel_threshold
        · rw [if_pos hg]; simp [ih]
        · rw [if_neg hg]; simp [ih]
    · rw [if_neg (by simpa using h), List.filter_cons_of_neg (by simpa using h)]
      exact ih

/-- **C6 as amended.** `total_seats` counts exactly the contours whose
contour area lies strictly between 150 and 3000 and whose bounding-box
aspect ratio lies strictly between 0.7 and 1.4. -/
theorem retention_total_seats (contours : List Contour) (stats : OccupancyStats)
    (h : analyze_seats (some contours) = some stats) :
    stats.total_seats = (contours.filter amended_retention).length := by
  simp only [analyze_seats, Option.some.injEq] at h
  subst h
  have : ∀ c, amended_retention c = seat_filter c := by
    intro c
    simp only [amended_retention, seat_filter, decide_eq_decide]
  rw [List.filter_congr fun c _ => this c]
  exact seat_loop_total contours

/-- Witness for C6 as amended: of the two counterexample contours, only
the second is retained. -/
theorem retention_total_seats_witness :
    (⟨1, 1, 0, 0, 0⟩ : OccupancyStats).total_seats =
      (([⟨150, 13, 12, 0, 0⟩, ⟨1000, 100, 100, 0, 0⟩] : List Contour).filter
        amended_retention).length :=
  retention_total_seats [⟨150, 13, 12, 0, 0⟩, ⟨1000, 100, 100, 0, 0⟩] ⟨1, 1, 0, 0, 0⟩
    (by norm_num [analyze_seats, seat_loop, seat_filter, aspect_ratio, pixel_threshold])

/-! ### Schedule parsing — `src/modules/parser.py`

String primitives (`strip`, `split`, `lower`, digit parsing) are
re-implemented structurally over character lists so that every
definition evaluates by kernel reduction. -/

def is_ws (c : Char) : Bool := c.isWhitespace

def strip_chars (l : List Char) : List Char :=
  ((l.dropWhile is_ws).reverse.dropWhile is_ws).reverse

/-- Python `str.strip()`. -/
def py_strip (s : String) : String := String.mk (strip_chars s.data)

/-- Python `str.lower()` (ASCII suffices for region slugs). -/
def py_lower (s : String) : String := String.mk (s.data.map Char.toLower)

def all_digits (l : List Char) : Bool := l.all Char.isDigit

def digits_to_nat (l : List Char) : ℕ := l.foldl (fun n c => 10 * n + (c.toNat - 48)) 0

def is_leap (y : ℕ) : Bool := decide (y % 4 = 0 ∧ (y % 100 ≠ 0 ∨ y % 400 = 0))

def days_in_month (y m : ℕ) : ℕ :=
  if m = 2 then (if is_leap y then 29 else 28)
  else if m = 4 ∨ m = 6 ∨ m = 9 ∨ m = 11 then 30 else 31

/-- A naive `datetime` as produced by
`datetime.strptime(f"{show_date_code} {show_time_code}", "%Y%m%d %H%M")`. -/
structure NaiveDT where
  year : ℕ
  month : ℕ
  day : ℕ
  hour : ℕ
  minute : ℕ
deriving DecidableEq, Repr

/-- `strptime` with format `%Y%m%d` on the canonical eight-digit date
codes the API emits: four-digit year, two-digit month and day, with
CPython's range validation (month 1–12, day 1–days-in-month). -/
def strptime_Ymd (s : String) : Option (ℕ × ℕ × ℕ) :=
  let cs := s.data
  if cs.length = 8 ∧ all_digits cs = true then
    let y := digits_to_nat (cs.take 4)
    let m := digits_to_nat ((cs.drop 4).take 2)
    let d := digits_to_nat (cs.drop 6)
    if 1 ≤ m ∧ m ≤ 12 ∧ 1 ≤ d ∧ d ≤ days_in_month y m then some (y, m, d) else none
  else none

/-- `strptime` with format `%H%M` on the canonical four-digit time
codes: hour 0–23, minute 0–59. -/
def strptime_HM (s : String) : Option (ℕ × ℕ) :=
  let cs := s.data
  if cs.length = 4 ∧ all_digits cs = true then
    let hh := digits_to_nat (cs.take 2)
    let mm := digits_to_nat (cs.drop 2)
    if hh ≤ 23 ∧ mm ≤ 59 then some (hh, mm) else none
  else none

/-- `datetime.strptime(f"{show_date_code} {show_time_code}", "%Y%m%d %H%M")`,
`none` when CPython would raise `ValueError`. -/
def strptime_Ymd_HM (date_code time_code : String) : Option NaiveDT :=
  match strptime_Ymd date_code, strptime_HM time_code with
  | some (y, m, d), some (hh, mm) => some ⟨y, m, d, hh, mm⟩
  | _, _ => none

/-- Days since 1970-01-01 of a proleptic-Gregorian civil date (the
standard days-from-civil algorithm; all divisions have positive
divisors). -/
def days_from_civil (y m d : ℤ) : ℤ :=
  let yAdj := if m ≤ 2 then y - 1 else y
  let era := yAdj / 400
  let yoe := yAdj - era * 400
  let mp := (m + 9) % 12
  let doy := (153 * mp + 2) / 5 + d - 1
  let doe := yoe * 365 + yoe / 4 - yoe / 100 + doy
  era * 146097 + doe - 719468

/-- Inverse of `days_from_civil`: the civil date of a day number. -/
def civil_from_days (z0 : ℤ) : ℤ × ℤ × ℤ :=
  let z := z0 + 719468
  let era := z / 146097
  let doe := z - era * 146097
  let yoe := (doe - doe / 1460 + doe / 36524 - doe / 146096) / 365
  let y := yoe + era * 400
  let doy := doe - (365 * yoe + yoe / 4 - yoe / 100)
  let mp := (5 * doy + 2) / 153
  let d := doy - (153 * mp + 2) / 5 + 1
  let m := if mp < 10 then mp + 3 else mp - 9
  (if m ≤ 2 then y + 1 else y, m, d)

/-- A naive timestamp as minutes since the civil epoch. -/
def epoch_minutes (t : NaiveDT) : ℤ :=
  days_from_civil t.year t.month t.day * 1440 + t.hour * 60 + t.minute

/-- The fixed Asia/Kolkata offset pytz applies to every modern date:
+5 h 30 min. -/
def IST_OFFSET_MIN : ℤ := 330

/-- The hardcoded capture lead of `timedelta(minutes=15)`. -/
def LEAD_OFFSET_MIN : ℤ := 15

/-- Spec-side `toUTC ∘ localize`: the UTC instant (in minutes) denoted
by an IST civil timestamp. -/
def to_utc_from_ist (civil : ℤ) : ℤ := civil - IST_OFFSET_MIN

/-- One entry of a venue's `showtimes` array, as read by the parser:
`additionalData.sessionId`, `additionalData.showDateCode`,
`additionalData.showTimeCode` (already string-converted) and the
display `title`.  A missing field is `none` / the empty string. -/
structure ShowtimeNode where
  sessionId : Option ℤ
  showDateCode : String
  showTimeCode : String
  title : Option String
deriving DecidableEq, Repr

/-- A node of a `venueGroup`'s `data` array. -/
structure VenueNode where
  type : String
  venueName : Option String
  venueCode : Option String
  showtimes : List ShowtimeNode
deriving DecidableEq, Repr

/-- A node of a `groupList` widget's `data` array. -/
structure GroupNode where
  type : String
  data : List VenueNode
deriving DecidableEq, Repr

/-- A node of `data.showtimeWidgets`. -/
structure WidgetNode where
  type : String
  data : List GroupNode
deriving DecidableEq, Repr

/-- The `data` object of the schedule document:
`header.title.text` and `showtimeWidgets`. -/
structure ScheduleData where
  headerTitle : Option String
  showtimeWidgets : List WidgetNode
deriving DecidableEq, Repr

/-- One row of the DataFrame produced by `parse_schedule_to_df`.
`ShowDateTime` and `ScrapeTriggerTime` are IST civil minutes;
`Trigger_Object_UTC` is a UTC instant in minutes. -/
structure ShowRow where
  movieName : String
  eventId : String
  venueCode : String
  venueName : String
  sessionId : ℤ
  showDate : String
  showTime : Option String
  showDateTime : ℤ
  scrapeTriggerTime : ℤ
  triggerUTC : ℤ
  ticketLink : String
  status : String
deriving DecidableEq, Repr

/-- The f-string rendering of the raw `sessionId` in the ticket link. -/
def session_str (o : Option ℤ) : String :=
  match o with
  | some n => toString n
  | none => "None"

/-- The body of the innermost `for show in venue.get('showtimes', [])`
loop: `none` exactly when the row is skipped (empty code after `strip`,
or `strptime` raises inside the `try`). -/
def row_of_showtime (movie_name event_code region_code venue_name venue_code : String)
    (s : ShowtimeNode) : Option ShowRow :=
  let show_date_code := py_strip s.showDateCode
  let show_time_code := py_strip s.showTimeCode
  if show_date_code = "" ∨ show_time_code = "" then none
  else
    match strptime_Ymd_HM show_date_code show_time_code with
    | none => none
    | some naive_dt =>
      let ist_dt := epoch_minutes naive_dt
      let trigger_ist := ist_dt - LEAD_OFFSET_MIN
      let trigger_utc := trigger_ist - IST_OFFSET_MIN
      some { movieName := movie_name
             eventId := event_code
             venueCode := venue_code
             venueName := venue_name
             sessionId := s.sessionId.getD 0
             showDate := show_date_code
             showTime := s.title
             showDateTime := ist_dt
             scrapeTriggerTime := trigger_ist
             triggerUTC := trigger_utc
             ticketLink := "https://in.bookmyshow.com/movies/" ++ py_lower region_code ++
               "/seat-layout/" ++ event_code ++ "/" ++ venue_code ++ "/" ++
               session_str s.sessionId ++ "/" ++ show_date_code
             status := "PENDING" }

/-- `parse_schedule_to_df`: the nested widget → group → venue → showtime
traversal, filtering by type tags, with the leading
`if not json_data or 'data' not in json_data` guard folded into the
`Option`. -/
def parse_schedule_to_df (json_data : Option ScheduleData)
    (event_code region_code : String) : List ShowRow :=
  match json_data with
  | none => []
  | some d =>
    let movie_name := d.headerTitle.getD "Unknown Movie"
    d.showtimeWidgets.flatMap fun widget =>
      if widget.type = "groupList" then
        widget.data.flatMap fun group =>
          if group.type = "venueGroup" then
            group.data.flatMap fun venue =>
              if venue.type = "venue-card" then
                (venue.showtimes).filterMap
                  (row_of_showtime movie_name event_code region_code
                    (venue.venueName.getD "Unknown Venue")
                    (venue.venueCode.getD "Unknown"))
              else []
          else []
      else []

/-- The venue-card leaves of a schedule document, in traversal order. -/
def venue_cards (d : ScheduleData) : List VenueNode :=
  d.showtimeWidgets.flatMap fun widget =>
    if widget.type = "groupList" then
      widget.data.flatMap fun group =>
        if group.type = "venueGroup" then
          group.data.filter (fun venue => venue.type = "venue-card")
        else []
    else []

lemma row_of_showtime_trigger {mn ec rc vn vc : String} {s : ShowtimeNode}
    {row : ShowRow} (h : row_of_showtime mn ec rc vn vc s = some row) :
    row.triggerUTC = row.showDateTime - LEAD_OFFSET_MIN - IST_OFFSET_MIN ∧
      row.scrapeTriggerTime = row.showDateTime - LEAD_OFFSET_MIN := by
  simp only [row_of_showtime] at h
  split at h
  · exact absurd h (by simp)
  · split at h
    · exact absurd h (by simp)
    · rw [Option.some.injEq] at h
      subst h
      exact ⟨rfl, rfl⟩

lemma mem_parse_schedule {jd : Option ScheduleData} {ec rc : String} {row : ShowRow}
    (h : row ∈ parse_schedule_to_df jd ec rc) :
    ∃ mn vn vc s, row_of_showtime mn ec rc vn vc s = some row := by
  match jd with
  | none => simp [parse_schedule_to_df] at h
  | some d =>
    simp only [parse_schedule_to_df] at h
    rcases List.mem_flatMap.1 h with ⟨widget, -, hw⟩
    by_cases h1 : widget.type = "groupList"
    · rw [if_pos h1] at hw
      rcases List.mem_flatMap.1 hw with ⟨group, -, hg⟩
      by_cases h2 : group.type = "venueGroup"
      · rw [if_pos h2] at hg
        rcases List.mem_flatMap.1 hg with ⟨venue, -, hv⟩
        by_cases h3 : venue.type = "venue-card"
        · rw [if_pos h3] at hv
          rcases List.mem_filterMap.1 hv with ⟨s, -, hs⟩
          exact ⟨_, _, _, s, hs⟩
        · rw [if_neg h3] at hv; exact absurd hv (List.not_mem_nil _)
      · rw [if_neg h2] at hg; exact absurd hg (List.not_mem_nil _)
    · rw [if_neg h1] at hw; exact absurd hw (List.not_mem_nil _)

/-- **C2.** Every row emitted by `parse_schedule_to_df` satisfies
`Trigger_Object_UTC = toUTC(localize(ShowDateTime − lead offset))`, the
local `ScrapeTriggerTime` is `ShowDateTime` minus the 15-minute lead,
and converting the UTC trigger back to IST civil time reproduces
`ShowDateTime − lead offset` exactly. -/
theorem trigger_time_utc (jd : Option ScheduleData) (ec rc : String)
    (row : ShowRow) (h : row ∈ parse_schedule_to_df jd ec rc) :
    row.triggerUTC = to_utc_from_ist (row.showDateTime - LEAD_OFFSET_MIN) ∧
      row.scrapeTriggerTime = row.showDateTime - LEAD_OFFSET_MIN ∧
      row.triggerUTC + IST_OFFSET_MIN = row.showDateTime - LEAD_OFFSET_MIN := by
  obtain ⟨mn, vn, vc, s, hs⟩ := mem_parse_schedule h
  obtain ⟨h1, h2⟩ := row_of_showtime_trigger hs
  refine ⟨?_, h2, ?_⟩
  · rw [h1]; rfl
  · rw [h1]; ring

/-- A one-show schedule document: 18:45 IST on 2025-06-15. -/
def sample_doc : ScheduleData :=
  ⟨some "Movie X",
   [⟨"groupList",
     [⟨"venueGroup",
       [⟨"venue-card", some "PVR Acropolis", some "PVRX",
         [⟨some 123, "20250615", "1845", some "06:45 PM"⟩]⟩]⟩]⟩]⟩

/-- The row the parser emits for `sample_doc`. -/
def sample_row : ShowRow :=
  { movieName := "Movie X"
    eventId := "ET1"
    venueCode := "PVRX"
    venueName := "PVR Acropolis"
    sessionId := 123
    showDate := "20250615"
    showTime := some "06:45 PM"
    showDateTime := epoch_minutes ⟨2025, 6, 15, 18, 45⟩
    scrapeTriggerTime := epoch_minutes ⟨2025, 6, 15, 18, 45⟩ - 15
    triggerUTC := epoch_minutes ⟨2025, 6, 15, 18, 45⟩ - 15 - 330
    ticketLink := "https://in.bookmyshow.com/movies/mumbai/seat-layout/ET1/PVRX/123/20250615"
    status := "PENDING" }

/-- Witness for C2: the 18:45 show with its 15-minute lead yields local
trigger 18:30 IST and UTC trigger 13:00, and the round trip holds. -/
theorem trigger_time_utc_witness :
    (sample_row ∈ parse_schedule_to_df (some sample_doc) "ET1" "MUMBAI" ∧
      sample_row.scrapeTriggerTime = epoch_minutes ⟨2025, 6, 15, 18, 30⟩ ∧
      sample_row.triggerUTC = epoch_minutes ⟨2025, 6, 15, 13, 0⟩) ∧
    (sample_row.triggerUTC = to_utc_from_ist (sample_row.showDateTime - LEAD_OFFSET_MIN) ∧
      sample_row.scrapeTriggerTime = sample_row.showDateTime - LEAD_OFFSET_MIN ∧
      sample_row.triggerUTC + IST_OFFSET_MIN = sample_row.showDateTime - LEAD_OFFSET_MIN) :=
  ⟨⟨by decide, by decide, by decide⟩,
   trigger_time_utc (some sample_doc) "ET1" "MUMBAI" sample_row (by decide)⟩

lemma flatMap_if_venue_card (l : List VenueNode) (f : VenueNode → List ShowRow) :
    (l.flatMap fun venue => if venue.type = "venue-card" then f venue else []) =
      (l.filter fun venue => venue.type = "venue-card").flatMap f := by
  induction l with
  | nil => rfl
  | cons v rest ih => by_cases h : v.type = "venue-card" <;> simp [h, ih]

/-- **C9.** (i) A document with zero venue-card leaves yields the empty
row sequence; (ii) a showtime whose stripped date or time code is empty
or fails to parse is dropped (`row_of_showtime` is `none`); (iii) the
whole batch is the independent concatenation of the per-venue-card
filterMaps, so one bad row never aborts the rest. -/
theorem parse_drops_bad_rows (d : ScheduleData) (ec rc : String) :
    (venue_cards d = [] → parse_schedule_to_df (some d) ec rc = []) ∧
    (∀ mn vn vc s, (py_strip s.showDateCode = "" ∨ py_strip s.showTimeCode = "" ∨
        strptime_Ymd_HM (py_strip s.showDateCode) (py_strip s.showTimeCode) = none) →
      row_of_showtime mn ec rc vn vc s = none) ∧
    parse_schedule_to_df (some d) ec rc = (venue_cards d).flatMap (fun venue =>
      venue.showtimes.filterMap
        (row_of_showtime (d.headerTitle.getD "Unknown Movie") ec rc
          (venue.venueName.getD "Unknown Venue") (venue.venueCode.getD "Unknown"))) := by
  have hmain : parse_schedule_to_df (some d) ec rc = (venue_cards d).flatMap (fun venue =>
      venue.showtimes.filterMap
        (row_of_showtime (d.headerTitle.getD "Unknown Movie") ec rc
          (venue.venueName.getD "Unknown Venue") (venue.venueCode.getD "Unknown"))) := by
    simp only [parse_schedule_to_df, venue_cards, List.flatMap_assoc]
    refine List.flatMap_congr fun widget _ => ?_
    by_cases h1 : widget.type = "groupList"
    · simp only [if_pos h1, List.flatMap_assoc]
      refine List.flatMap_congr fun group _ => ?_
      by_cases h2 : group.type = "venueGroup"
      · simp only [if_pos h2]
        exact flatMap_if_venue_card _ _
      · simp [if_neg h2]
    · simp [if_neg h1]
  refine ⟨fun hempty => by rw [hmain, hempty]; rfl, ?_, hmain⟩
  intro mn vn vc s hbad
  unfold row_of_showtime
  rcases hbad with hbad | hbad | hbad
  · rw [if_pos (Or.inl hbad)]
  · rw [if_pos (Or.inr hbad)]
  · by_cases hif : py_strip s.showDateCode = "" ∨ py_strip s.showTimeCode = ""
    · rw [if_pos hif]
    · rw [if_neg hif, hbad]

/-- Witness for C9: a document whose only widget is not a `groupList`
yields no rows; a blank date code and an invalid date (2025-02-30) are
each dropped. -/
theorem parse_drops_bad_rows_witness :
    parse_schedule_to_df (some ⟨some "M", [⟨"adCarousel", []⟩]⟩) "E" "r" = [] ∧
    row_of_showtime "M" "E" "r" "V" "VC" ⟨some 1, "  ", "1845", none⟩ = none ∧
    row_of_showtime "M" "E" "r" "V" "VC" ⟨some 1, "20250230", "1845", none⟩ = none :=
  ⟨(parse_drops_bad_rows ⟨some "M", [⟨"adCarousel", []⟩]⟩ "E" "r").1 (by decide),
   (parse_drops_bad_rows ⟨some "M", [⟨"adCarousel", []⟩]⟩ "E" "r").2.1 "M" "V" "VC" _
     (Or.inl (by decide)),
   (parse_drops_bad_rows ⟨some "M", [⟨"adCarousel", []⟩]⟩ "E" "r").2.1 "M" "V" "VC" _
     (Or.inr (Or.inr (by decide)))⟩

/-! ### Campaign scheduler — `src/app_scheduler.py`

`run_logic` does two independent things per invocation: enqueue one
Cloud Tasks capture job per future show (step 1), and enqueue one
self-invocation for the next day while the cursor has not reached the
end date (step 2).  `create_task` is external; a job is modelled by its
URL, payload and schedule time.  `datetime.now(pytz.utc)` is the
invocation's current time `now`, in UTC minutes. -/

/-- Python `int(...)` on a string: optional sign and surrounding
whitespace, digits required. -/
def py_int (s : String) : Option ℤ :=
  match strip_chars s.data with
  | '-' :: rest =>
    if rest ≠ [] ∧ all_digits rest = true then some (-(digits_to_nat rest : ℤ)) else none
  | '+' :: rest =>
    if rest ≠ [] ∧ all_digits rest = true then some (digits_to_nat rest : ℤ) else none
  | t => if t ≠ [] ∧ all_digits t = true then some (digits_to_nat t : ℤ) else none

def split_on_colon : List Char → List (List Char)
  | [] => [[]]
  | c :: rest =>
    match split_on_colon rest with
    | [] => [[c]]
    | g :: gs => if c = ':' then [] :: g :: gs else (c :: g) :: gs

/-- Python `s.split(":")`. -/
def py_split_colon (s : String) : List String := (split_on_colon s.data).map String.mk

/-- `int(run_time.split(":")[0])` and `[1]`, plus the range check
`datetime.replace` performs on `hour=`/`minute=`; `none` models the
uncaught `IndexError`/`ValueError`. -/
def parse_run_time (s : String) : Option (ℤ × ℤ) :=
  match py_split_colon s with
  | p0 :: p1 :: _ =>
    match py_int p0, py_int p1 with
    | some hh, some mm =>
      if 0 ≤ hh ∧ hh ≤ 23 ∧ 0 ≤ mm ∧ mm ≤ 59 then some (hh, mm) else none
    | _, _ => none
  | _ => none

/-- Two-digit zero-padded decimal rendering (for `strftime`). -/
def pad2 (n : ℤ) : String :=
  String.mk [Char.ofNat (48 + ((n / 10) % 10).toNat), Char.ofNat (48 + (n % 10).toNat)]

/-- Four-digit zero-padded decimal rendering. -/
def pad4 (n : ℤ) : String := pad2 (n / 100) ++ pad2 n

/-- `strftime("%Y%m%d")` of a day number. -/
def strftime_Ymd (z : ℤ) : String :=
  let c := civil_from_days z
  pad4 c.1 ++ pad2 c.2.1 ++ pad2 c.2.2

/-- The `/process_day` request body (`CampaignRequest` in the source). -/
structure CampaignRequest where
  event_id : String
  target_date : String
  end_date : String
  run_time : String
deriving DecidableEq, Repr

/-- `SCHEDULER_URL` / `WORKER_URL` environment configuration (opaque
endpoint addresses). -/
def SCHEDULER_URL : String := "https://scheduler.example/process_day"

def WORKER_URL : String := "https://worker.example/scrape_session"

/-- A `create_task` call addressed at the scheduler itself. -/
structure SelfJob where
  url : String
  payload : CampaignRequest
  schedule_min : ℤ
deriving DecidableEq, Repr

/-- Step 2 of `run_logic` — "Schedule Self for Next Day":
`strptime` both cursor dates, and iff `curr_date < end_date` emit one
task at `(curr_date + 1 day).replace(hour, minute)` whose payload is the
request with `target_date` advanced to the next calendar day.  `none`
models an uncaught parse exception escaping the background task. -/
def run_logic_self_jobs (req : CampaignRequest) : Option (List SelfJob) :=
  match strptime_Ymd req.target_date, strptime_Ymd req.end_date with
  | some (cy, cm, cd), some (ey, em, ed) =>
    let curr_days := days_from_civil cy cm cd
    let end_days := days_from_civil ey em ed
    if curr_days < end_days then
      match parse_run_time req.run_time with
      | some (hh, mm) =>
        some [{ url := SCHEDULER_URL
                payload := { req with target_date := strftime_Ymd (curr_days + 1) }
                schedule_min := (curr_days + 1) * 1440 + hh * 60 + mm }]
      | none => none
    else some []
  | _, _ => none

/-- **C3.** With a well-formed cursor: if the end date does not exceed
the target date (in particular if the two date strings are equal) the
invocation emits zero self-invocation jobs; if the target date is
strictly before the end date it emits exactly one, scheduled at the next
calendar day combined with the daily run time and carrying the cursor
with the advanced date. -/
theorem self_chain_step (req : CampaignRequest) (cy cm cd ey em ed : ℕ) (hh mm : ℤ)
    (hc : strptime_Ymd req.target_date = some (cy, cm, cd))
    (he : strptime_Ymd req.end_date = some (ey, em, ed))
    (hr : parse_run_time req.run_time = some (hh, mm)) :
    (days_from_civil ey em ed ≤ days_from_civil cy cm cd →
      run_logic_self_jobs req = some []) ∧
    (days_from_civil cy cm cd < days_from_civil ey em ed →
      run_logic_self_jobs req = some
        [{ url := SCHEDULER_URL
           payload := { req with
             target_date := strftime_Ymd (days_from_civil cy cm cd + 1) }
           schedule_min := (days_from_civil cy cm cd + 1) * 1440 + hh * 60 + mm }]) ∧
    (req.target_date = req.end_date → run_logic_self_jobs req = some []) := by
  have hbase : ∀ h1 : ¬ days_from_civil cy cm cd < days_from_civil ey em ed,
      run_logic_self_jobs req = some [] := by
    intro h1
    unfold run_logic_self_jobs
    rw [hc, he]
    simp only [if_neg h1]
  refine ⟨fun hle => hbase (not_lt.2 hle), fun hlt => ?_, fun heq => ?_⟩
  · unfold run_logic_self_jobs
    rw [hc, he]
    simp only [if_pos hlt, hr]
  · have he2 : strptime_Ymd req.target_date = some (ey, em, ed) := by rw [heq, he]
    have heq3 : (cy, cm, cd) = (ey, em, ed) := Option.some.inj (hc.symm.trans he2)
    obtain ⟨h1, h2, h3⟩ : cy = ey ∧ cm = em ∧ cd = ed := by
      simpa [Prod.ext_iff] using heq3
    exact hbase (by rw [h1, h2, h3]; exact lt_irrefl _)

/-- Witness for C3: cursor 2025-01-10 → 2025-01-12 with run time 09:30
emits exactly one self-invocation for the next day. -/
theorem self_chain_step_witness :
    run_logic_self_jobs ⟨"ET1", "20250110", "20250112", "09:30"⟩ =
      some [{ url := SCHEDULER_URL
              payload := { event_id := "ET1"
                           target_date := strftime_Ymd (days_from_civil 2025 1 10 + 1)
                           end_date := "20250112"
                           run_time := "09:30" }
              schedule_min := (days_from_civil 2025 1 10 + 1) * 1440 + 9 * 60 + 30 }] :=
  (self_chain_step ⟨"ET1", "20250110", "20250112", "09:30"⟩ 2025 1 10 2025 1 12 9 30
    (by decide) (by decide) (by decide)).2.1 (by decide)

/-- One city's iteration of step 1 of `run_logic`: the fetch result and
the static config slug for that city. -/
structure CityFetch where
  city : String
  slug : String
  doc : Option ScheduleData
deriving DecidableEq, Repr

/-- A `create_task` call addressed at the worker: the payload carries
the row (minus the `Trigger_Object_UTC` object, which only determines
`schedule_min`) and the city. -/
structure CaptureJob where
  url : String
  payload_row : ShowRow
  payload_city : String
  schedule_min : ℤ
deriving DecidableEq, Repr

/-- Step 1 of `run_logic` for one city: `if not data: continue`, then
one task per parsed row whose `Trigger_Object_UTC` is strictly after
`now`, scheduled at that trigger instant. -/
def city_capture_jobs (now : ℤ) (event_id : String) (cf : CityFetch) : List CaptureJob :=
  match cf.doc with
  | none => []
  | some d =>
    (parse_schedule_to_df (some d) event_id cf.slug).filterMap fun row =>
      if row.triggerUTC > now then
        some { url := WORKER_URL, payload_row := row, payload_city := cf.city,
               schedule_min := row.triggerUTC }
      else none

/-- Step 1 of `run_logic` over the whole `CITY_CONFIG` iteration. -/
def run_logic_capture_jobs (now : ℤ) (event_id : String)
    (fetches : List CityFetch) : List CaptureJob :=
  fetches.flatMap (city_capture_jobs now event_id)

lemma mem_city_capture_jobs {now : ℤ} {eid : String} {cf : CityFetch} {j : CaptureJob}
    (h : j ∈ city_capture_jobs now eid cf) :
    j.payload_city = cf.city ∧ j.url = WORKER_URL ∧
      j.schedule_min = j.payload_row.triggerUTC ∧ now < j.payload_row.triggerUTC ∧
      ∃ d, cf.doc = some d ∧ j.payload_row ∈ parse_schedule_to_df (some d) eid cf.slug := by
  unfold city_capture_jobs at h
  split at h
  · exact absurd h (List.not_mem_nil _)
  · rename_i d hd
    rcases List.mem_filterMap.1 h with ⟨row, hrow, hj⟩
    split at hj
    · rename_i hgt
      rw [Option.some.injEq] at hj
      subst hj
      exact ⟨rfl, rfl, rfl, hgt, d, hd, hrow⟩
    · exact absurd hj (by simp)

lemma count_filterMap_capture (now : ℤ) (city : String) (row : ShowRow)
    (rows : List ShowRow) :
    (rows.filterMap fun r =>
        if r.triggerUTC > now then
          some { url := WORKER_URL, payload_row := r, payload_city := city,
                 schedule_min := r.triggerUTC }
        else (none : Option CaptureJob)).count
        ⟨WORKER_URL, row, city, row.triggerUTC⟩ =
      if now < row.triggerUTC then rows.count row else 0 := by
  induction rows with
  | nil => simp [List.count_nil]
  | cons r rest ih =>
    by_cases hgt : r.triggerUTC > now
    · rw [List.filterMap_cons_some (by rw [if_pos hgt])]
      by_cases heq : r = row
      · subst heq
        have hfut : now < r.triggerUTC := hgt
        rw [List.count_cons_self, List.count_cons_self, ih, if_pos hfut, if_pos hfut]
      · have hne : (⟨WORKER_URL, row, city, row.triggerUTC⟩ : CaptureJob) ≠
            ⟨WORKER_URL, r, city, r.triggerUTC⟩ := by
          intro hcontra
          rw [CaptureJob.mk.injEq] at hcontra
          exact heq hcontra.2.1.symm
        rw [List.count_cons_of_ne hne, List.count_cons_of_ne (fun hh => heq hh.symm), ih]
    · rw [List.filterMap_cons_none (by rw [if_neg hgt])]
      rw [ih]
      by_cases hfut : now < row.triggerUTC
      · have hne : row ≠ r := fun hh => hgt (hh ▸ hfut)
        rw [if_pos hfut, if_pos hfut, List.count_cons_of_ne hne]
      · rw [if_neg hfut, if_neg hfut]

lemma count_city_capture_jobs {now : ℤ} {eid : String} {cf : CityFetch} {d : ScheduleData}
    (hd : cf.doc = some d) (row : ShowRow) :
    (city_capture_jobs now eid cf).count
        ⟨WORKER_URL, row, cf.city, row.triggerUTC⟩ =
      if now < row.triggerUTC then
        (parse_schedule_to_df (some d) eid cf.slug).count row
      else 0 := by
  have hrewrite : city_capture_jobs now eid cf =
      (parse_schedule_to_df (some d) eid cf.slug).filterMap fun r =>
        if r.triggerUTC > now then
          some { url := WORKER_URL, payload_row := r, payload_city := cf.city,
                 schedule_min := r.triggerUTC }
        else (none : Option CaptureJob) := by
    unfold city_capture_jobs
    rw [hd]
  rw [hrewrite]
  exact count_filterMap_capture now cf.city row _

lemma count_capture_jobs_other {now : ℤ} {eid city : String} (row : ShowRow)
    (fetches : List CityFetch) (h : ∀ cf ∈ fetches, cf.city ≠ city) :
    (run_logic_capture_jobs now eid fetches).count
      ⟨WORKER_URL, row, city, row.triggerUTC⟩ = 0 := by
  induction fetches with
  | nil => rfl
  | cons g rest ih =>
    unfold run_logic_capture_jobs
    rw [List.flatMap_cons, List.count_append]
    have h1 : (city_capture_jobs now eid g).count
        ⟨WORKER_URL, row, city, row.triggerUTC⟩ = 0 := by
      rw [List.count_eq_zero]
      intro hmem
      exact h g (List.mem_cons_self _ _) (mem_city_capture_jobs hmem).1.symm
    rw [h1, Nat.zero_add]
    simpa [run_logic_capture_jobs] using ih fun cf hcf => h cf (List.mem_cons_of_mem _ hcf)

/-- **C4.** For a show record parsed once for a city during one
invocation: exactly one capture job carrying it is enqueued, scheduled
at its `Trigger_Object_UTC`, iff that trigger is strictly after the
invocation's current time (zero jobs otherwise); and any job carrying
the record is that job, existing only when the trigger is future. -/
theorem capture_job_dispatch (now : ℤ) (event_id : String) (fetches : List CityFetch)
    (cf : CityFetch) (d : ScheduleData) (row : ShowRow)
    (hd : cf.doc = some d)
    (hcount : fetches.count cf = 1)
    (huniq : ∀ cf2 ∈ fetches, cf2.city = cf.city → cf2 = cf)
    (hrow : (parse_schedule_to_df (some d) event_id cf.slug).count row = 1) :
    ((run_logic_capture_jobs now event_id fetches).count
        ⟨WORKER_URL, row, cf.city, row.triggerUTC⟩ =
      if now < row.triggerUTC then 1 else 0) ∧
    (∀ j ∈ run_logic_capture_jobs now event_id fetches,
      j.payload_city = cf.city → j.payload_row = row →
        j = ⟨WORKER_URL, row, cf.city, row.triggerUTC⟩ ∧ now < row.triggerUTC) := by
  constructor
  · induction fetches with
    | nil => simp at hcount
    | cons g rest ih =>
      have hstep : run_logic_capture_jobs now event_id (g :: rest) =
          city_capture_jobs now event_id g ++ run_logic_capture_jobs now event_id rest := by
        unfold run_logic_capture_jobs
        rw [List.flatMap_cons]
      rw [hstep, List.count_append]
      by_cases hg : g = cf
      · subst hg
        have hrest0 : rest.count g = 0 := by
          rw [List.count_cons_self] at hcount
          omega
        have hnot : ∀ cf2 ∈ rest, cf2.city ≠ g.city := by
          intro cf2 hcf2 hcity
          have hcf2g := huniq cf2 (List.mem_cons_of_mem _ hcf2) hcity
          subst hcf2g
          rw [List.count_eq_zero] at hrest0
          exact hrest0 hcf2
        rw [count_city_capture_jobs hd row, hrow,
          count_capture_jobs_other row rest hnot]
        split <;> rfl
      · have hcity : g.city ≠ cf.city := fun hcity =>
          hg (huniq g (List.mem_cons_self _ _) hcity)
        have h1 : (city_capture_jobs now event_id g).count
            ⟨WORKER_URL, row, cf.city, row.triggerUTC⟩ = 0 := by
          rw [List.count_eq_zero]
          intro hmem
          exact hcity (mem_city_capture_jobs hmem).1.symm
        have hcount2 : rest.count cf = 1 := by
          rwa [List.count_cons_of_ne (fun hh => hg hh.symm)] at hcount
        rw [h1, Nat.zero_add]
        exact ih hcount2 fun cf2 hcf2 => huniq cf2 (List.mem_cons_of_mem _ hcf2)
  · intro j hj hjcity hjrow
    rcases List.mem_flatMap.1 hj with ⟨cf2, hcf2, hjin⟩
    obtain ⟨hc1, hc2, hc3, hc4, -⟩ := mem_city_capture_jobs hjin
    have hcf2cf : cf2 = cf := huniq cf2 hcf2 (hc1.symm.trans hjcity)
    subst hcf2cf
    constructor
    · obtain ⟨u, pr, pc, sm⟩ := j
      dsimp only at hc1 hc2 hc3 hjrow hjcity
      subst hc2
      subst hjrow
      subst hc3
      subst hjcity
      rfl
    · exact hjrow ▸ hc4

/-- Witness for C4 on the sample document: one city, one future show,
exactly one capture job. -/
theorem capture_job_dispatch_witness :
    (run_logic_capture_jobs 0 "ET1" [⟨"MUMBAI", "mumbai", some sample_doc⟩]).count
        ⟨WORKER_URL, sample_row, "MUMBAI", sample_row.triggerUTC⟩ =
      if (0 : ℤ) < sample_row.triggerUTC then 1 else 0 :=
  (capture_job_dispatch 0 "ET1" [⟨"MUMBAI", "mumbai", some sample_doc⟩]
    ⟨"MUMBAI", "mumbai", some sample_doc⟩ sample_doc sample_row rfl
    (by decide) (by decide) (by decide)).1

/-! ### Capture dispatchers — `src/worker.py` and `src/app_worker.py`

Each dispatched job runs capture → analysis → persist.  The external
steps are modelled by their observable results: `PyResult.raised` is an
exception escaping the step, `.ok` its return value.  `capture` is
`layout.capture_seat_layout` (a success flag), `analysis` is
`analyzer.analyze_seats` (a stats dictionary or `None`), `sink` is the
JSON report write (`worker.py`) resp. `bq.stream_data`
(`app_worker.py`). -/

/-- The outcome of running one Python call: normal return or a raised
exception. -/
inductive PyResult (α : Type) where
  | ok (val : α)
  | raised
deriving DecidableEq, Repr

/-- The step outcomes one dispatched capture job observes. -/
structure DispatchSteps where
  capture : PyResult Bool
  analysis : PyResult (Option OccupancyStats)
  sink : PyResult Unit
deriving DecidableEq, Repr

/-- The `Status` column values written by `worker.process_tasks`. -/
inductive TaskStatus where
  | pending
  | completed
  | failed_capture
  | error
deriving DecidableEq, Repr

/-- The `try`/`except` body of one iteration of `worker.process_tasks`:
returns the final `Status` written to the DataFrame and whether the JSON
report reached the sink.  Mirrors the source exactly: the
`df.at[index, 'Status'] = 'COMPLETED'` line sits under `if success:`
but *outside* `if stats:`, so a `None` analysis still ends COMPLETED;
`except Exception` turns any raise into `Status = 'ERROR'`.
`capture` is the truthiness of the value the code binds to `success`:
`worker.py` calls the async `capture_seat_layout` without awaiting it,
so at runtime `success` is a coroutine object and therefore always
truthy — the `.ok false` / FAILED_CAPTURE branch embeds the boolean
test written in the code but is unreachable in the running program
(and, the screenshot never being taken, `cv2.imread` fails and the
analysis step returns `None` on this, the program's effective path). -/
def process_one_task (st : DispatchSteps) : TaskStatus × Bool :=
  match st.capture with
  | .raised => (.error, false)
  | .ok false => (.failed_capture, false)
  | .ok true =>
    match st.analysis with
    | .raised => (.error, false)
    | .ok none => (.completed, false)
    | .ok (some _) =>
      match st.sink with
      | .raised => (.error, false)
      | .ok _ => (.completed, true)

/-- The `for index, row in pending_tasks.iterrows()` loop of
`worker.process_tasks`: because the blanket `except Exception` makes
every iteration total, the loop visits every due task and each task's
outcome is a function of its own step results alone. -/
def process_tasks (tasks : List (ShowRow × DispatchSteps)) :
    List (ShowRow × TaskStatus × Bool) :=
  tasks.map fun t => (t.1, process_one_task t.2)

/-- Required positional parameters of `analyze_seats`
(`image_path`, `processed_image_output_path`; no defaults). -/
def analyze_seats_param_count : ℕ := 2

/-- Positional arguments supplied at the call site in
`app_worker.scrape`: `analyzer.analyze_seats(path)`. -/
def app_worker_analyze_arg_count : ℕ := 1

/-- CPython argument binding for the analysis call in
`app_worker.scrape`: one positional argument against two required
parameters means `TypeError` is raised before the body runs; `result`
is what a correctly bound call would have returned. -/
def call_analyze_one_arg (result : PyResult (Option OccupancyStats)) :
    PyResult (Option OccupancyStats) :=
  if app_worker_analyze_arg_count = analyze_seats_param_count then result
  else .raised

/-- The `/scrape_session` handler `app_worker.scrape`: no `except`
clause — the `try`/`finally` only removes the temp file — so a raise in
any step propagates out of the handler.  Returns the response body, the
streamed flag, and the record's final `Status` (which starts at the
payload's incoming value and is assigned `'COMPLETED'` only on the full
success path).  The analysis step goes through `call_analyze_one_arg`:
because the call site passes one argument to the two-parameter
`analyze_seats`, a successful capture always raises `TypeError` there,
making the `stats`-`None` and success branches written below it
unreachable in the running program. -/
def scrape (st : DispatchSteps) (record_status : String) :
    PyResult (String × Bool × String) :=
  match st.capture with
  | .raised => .raised
  | .ok false => .ok ("failed", false, record_status)
  | .ok true =>
    match call_analyze_one_arg st.analysis with
    | .raised => .raised
    | .ok (some _) =>
      match st.sink with
      | .raised => .raised
      | .ok _ => .ok ("success", true, "COMPLETED")
    | .ok none => .ok ("failed", false, record_status)

/-- Counterexample to C7: in `worker.process_tasks`, when capture
succeeds (as it always appears to, the un-awaited coroutine being
truthy) and the analyzer returns no result, the record is withheld
from the sink but `Status` is nonetheless set to COMPLETED — it does
not remain non-COMPLETED.  This is the batch path the program actually
takes: no screenshot exists, so `cv2.imread` fails and `analyze_seats`
returns `None`. -/
theorem analysis_failure_counterexample :
    process_one_task ⟨.ok true, .ok none, .ok ()⟩ = (TaskStatus.completed, false) := by
  rfl

/-- **C7 as amended.** When capture succeeds but analysis fails, the
record is withheld from the sink in both dispatchers, yet neither
behaves as the claim states: the batch dispatcher
(`worker.process_tasks`) still marks the row COMPLETED on a `None`
analysis result, and in the HTTP dispatcher (`app_worker.scrape`) the
analyzer can never return no result at all — the one-argument call to
the two-parameter `analyze_seats` raises `TypeError` whenever capture
succeeds, and the uncaught exception propagates out of the handler with
nothing streamed and `Status` never assigned. -/
theorem analysis_failure_handling (sink : PyResult Unit)
    (analysis : PyResult (Option OccupancyStats)) (s : PyResult Unit) (s0 : String) :
    process_one_task ⟨.ok true, .ok none, sink⟩ = (TaskStatus.completed, false) ∧
    scrape ⟨.ok true, analysis, s⟩ s0 = .raised ∧
    app_worker_analyze_arg_count ≠ analyze_seats_param_count :=
  ⟨rfl, rfl, by decide⟩

/-- Counterexample to C8: in `app_worker.scrape` an unexpected failure
is *not* caught at the dispatcher boundary — a raise anywhere in the
`try` body propagates out of the handler, and no ERROR status is
recorded.  (On the success-capture paths the raise that actually
escapes is the `TypeError` from the one-argument analysis call; a raise
in the capture step, or in the analysis or sink step of a correctly
bound call, would escape the same way, since the handler has only
`try`/`finally`.) -/
theorem dispatch_error_propagates_counterexample :
    scrape ⟨.raised, .ok none, .ok ()⟩ "PENDING" = .raised ∧
    scrape ⟨.ok true, .raised, .ok ()⟩ "PENDING" = .raised ∧
    scrape ⟨.ok true, .ok (some ⟨1, 1, 0, 0, 0⟩), .raised⟩ "PENDING" = .raised := by
  exact ⟨rfl, rfl, rfl⟩

/-- **C8 as amended.** In the batch dispatcher (`worker.process_tasks`)
an unexpected failure in any executed step is caught, recorded as
`Status = ERROR`, and leaves every other show's processing unchanged
(the loop result for each task depends only on that task's own steps);
in the HTTP dispatcher (`app_worker.scrape`) such failures are not
caught and propagate out of the handler. -/
theorem dispatch_error_containment :
    (∀ a s, process_one_task ⟨.raised, a, s⟩ = (TaskStatus.error, false)) ∧
    (∀ s, process_one_task ⟨.ok true, .raised, s⟩ = (TaskStatus.error, false)) ∧
    (∀ stats, process_one_task ⟨.ok true, .ok (some stats), .raised⟩ =
      (TaskStatus.error, false)) ∧
    (∀ pre post t, process_tasks (pre ++ t :: post) =
      process_tasks pre ++ (t.1, process_one_task t.2) :: process_tasks post) ∧
    (∀ a s s0, scrape ⟨.raised, a, s⟩ s0 = .raised) ∧
    (∀ s s0, scrape ⟨.ok true, .raised, s⟩ s0 = .raised) ∧
    (∀ stats s0, scrape ⟨.ok true, .ok (some stats), .raised⟩ s0 = .raised) := by
  refine ⟨fun a s => rfl, fun s => rfl, fun stats => rfl, ?_, fun a s s0 => rfl,
    fun s s0 => rfl, fun stats s0 => rfl⟩
  intro pre post t
  simp [process_tasks]

/-! ### Standalone daily scheduler — `src/daily_scheduler.py`

`main` loops over `CITY_CONFIG`, fetches each city's schedule, and
calls `parser.parse_schedule_to_df(json_data, args.event)` — two
positional arguments against a signature
`parse_schedule_to_df(json_data, event_code, region_code)` with three
required parameters and no defaults.  CPython binds call arguments to
parameters before running the body and raises `TypeError` when a
required positional parameter is missing; `main` has no handler, so the
first city with a non-empty document kills the run before
`master_queue.csv` is written. -/

/-- Required positional parameters of `parse_schedule_to_df`
(`json_data`, `event_code`, `region_code`; no defaults). -/
def parse_schedule_to_df_param_count : ℕ := 3

/-- Positional arguments supplied at the call site in
`daily_scheduler.main`: `(json_data, args.event)`. -/
def daily_scheduler_arg_count : ℕ := 2

/-- CPython argument binding for the call in `daily_scheduler.main`:
the body runs only if every required parameter is bound, otherwise
`TypeError` is raised before entering the function.  (The region
argument is absent at this call site, hence the placeholder in the
unreachable branch.) -/
def call_parse_two_args (json_data : ScheduleData) (event : String) :
    PyResult (List ShowRow) :=
  if daily_scheduler_arg_count = parse_schedule_to_df_param_count then
    .ok (parse_schedule_to_df (some json_data) event "")
  else .raised

/-- Stable insertion into a list ascending by `ScrapeTriggerTime`. -/
def insert_by_trigger (r : ShowRow) : List ShowRow → List ShowRow
  | [] => [r]
  | x :: rest =>
    if x.scrapeTriggerTime ≤ r.scrapeTriggerTime then x :: insert_by_trigger r rest
    else r :: x :: rest

/-- `final_df.sort_values(by='ScrapeTriggerTime')`. -/
def sort_by_trigger (l : List ShowRow) : List ShowRow := l.foldr insert_by_trigger []

/-- The `for city_name, config in CITY_CONFIG.items()` loop of
`daily_scheduler.main`, with `fetches` the per-city results of
`scraper.fetch_schedule` (in iteration order; `none` is a failed or
falsy response, handled by `if json_data:`).  An uncaught exception
aborts the whole loop. -/
def daily_main_loop : List (Option ScheduleData) → String → List (List ShowRow) →
    PyResult (List (List ShowRow))
  | [], _, acc => .ok acc
  | none :: rest, ev, acc => daily_main_loop rest ev acc
  | some d :: rest, ev, acc =>
    match call_parse_two_args d ev with
    | .raised => .raised
    | .ok df => daily_main_loop rest ev (if df.isEmpty then acc else acc ++ [df])

/-- `daily_scheduler.main` after argument parsing: returns the master
queue contents (`some` rows) if `master_queue.csv` is written, `none`
if no city had data, or `.raised` when an exception escapes. -/
def daily_main (fetches : List (Option ScheduleData)) (event : String) :
    PyResult (Option (List ShowRow)) :=
  match daily_main_loop fetches event [] with
  | .raised => .raised
  | .ok [] => .ok none
  | .ok dfs => .ok (some (sort_by_trigger dfs.flatten))

lemma daily_main_loop_raises (fetches : List (Option ScheduleData)) (ev : String)
    (acc : List (List ShowRow)) (h : ∃ d, some d ∈ fetches) :
    daily_main_loop fetches ev acc = .raised := by
  induction fetches generalizing acc with
  | nil => simp at h
  | cons o rest ih =>
    obtain ⟨d, hd⟩ := h
    cases o with
    | some d0 =>
      have hraise : call_parse_two_args d0 ev = .raised := rfl
      simp only [daily_main_loop, hraise]
    | none =>
      have hrest : some d ∈ rest := by
        rcases List.mem_cons.1 hd with h1 | h1
        · exact absurd h1 (by simp)
        · exact h1
      exact ih acc ⟨d, hrest⟩

/-- **C10.** Whenever at least one city's fetch returns a non-empty
document, the two-argument call to the three-parameter
`parse_schedule_to_df` raises `TypeError`, the run aborts, and the
master queue is never produced through this path. -/
theorem daily_scheduler_type_error (fetches : List (Option ScheduleData))
    (event : String) (h : ∃ d, some d ∈ fetches) :
    daily_main fetches event = .raised ∧
      daily_scheduler_arg_count ≠ parse_schedule_to_df_param_count := by
  refine ⟨?_, by decide⟩
  unfold daily_main
  rw [daily_main_loop_raises fetches event [] h]

/-- Witness for C10: a single city with the sample document aborts the
run. -/
theorem daily_scheduler_type_error_witness :
    daily_main [some sample_doc] "ET1" = .raised ∧
      daily_scheduler_arg_count ≠ parse_schedule_to_df_param_count :=
  daily_scheduler_type_error [some sample_doc] "ET1" ⟨sample_doc, by simp⟩

end BMS
